import Mathlib

/-!
# Verification of the Live-Life therapy-session lifecycle

A shallow embedding of the session client (`src/services/tavusService.ts`)
and the session lifecycle controller (`src/hooks/useTherapySession.ts`).

JavaScript strings are modelled as `String`, JS truthiness of a possibly
absent string (`x || y` chains, `!!x`) via `jsTruthy`/`jsOrStr`, HTTP
failures via the `VendorFailure` record (the fields of an axios error that
the code inspects), and thrown exceptions via `Option String` / explicit
error components.  React `useState` cells become fields of
`ControllerState`; each `async` handler is split at its `await` points into
the synchronous prefix and the continuation, exactly as the browser event
loop interleaves them.
-/

/-- `pat` occurs as a contiguous run inside the character list. -/
def occursInChars (pat : List Char) : List Char → Bool
  | [] => pat.isEmpty
  | c :: cs => pat.isPrefixOf (c :: cs) || occursInChars pat cs

/-- `s.includes(pat)` of JavaScript: `pat` occurs as a contiguous substring. -/
def containsStr (s pat : String) : Bool :=
  occursInChars pat.data s.data

/-- `s.toLowerCase()` of JavaScript, computed characterwise (the strings the
code lowercases are ASCII). -/
def lowerChars (s : String) : String :=
  String.mk (s.data.map Char.toLower)

/-- JS truthiness of a possibly-absent string: `undefined` and `""` are falsy. -/
def jsTruthy (o : Option String) : Option String :=
  match o with
  | none => none
  | some s => if s = "" then none else some s

/-- `a || d` for a possibly-absent string `a` and a default `d`. -/
def jsOrStr (a : Option String) (d : String) : String :=
  match jsTruthy a with
  | some s => s
  | none => d

/-- The fields of an axios error object inspected by `tavusService.ts`:
`error.response?.status`, `error.response?.data?.message`,
`error.response?.data?.error`, and `error.code`.  `none` models an absent
field (e.g. no HTTP response at all for a client-side abort). -/
structure VendorFailure where
  status : Option Nat
  dataMessage : Option String
  dataError : Option String
  code : Option String
  deriving DecidableEq, Repr

/-- `TavusService.isConfigured` (`tavusService.ts:259-278`): both credential
strings truthy, neither containing its placeholder sentinels, both longer
than 10 characters. -/
def isConfigured (apiKey personaId : String) : Bool :=
  (apiKey != "") &&
  (personaId != "") &&
  !(containsStr apiKey "your_tavus_api_key_here") &&
  !(containsStr apiKey "your_actual_tavus_api_key_here") &&
  !(containsStr personaId "your_persona_id_here") &&
  !(containsStr personaId "your_actual_persona_id_here") &&
  decide (apiKey.length > 10) &&
  decide (personaId.length > 10)

/-- The outcome of the catch-block of `TavusService.endConversation`
(`tavusService.ts:214-227`): `some m` means an `Error` with message `m` is
re-thrown to the caller, `none` means the failure is only logged and the
call returns normally (as does the success path). -/
def endConversationOutcome (e : VendorFailure) : Option String :=
  if e.status = some 401 then
    some "Invalid Tavus API key."
  else if e.status = some 404 then
    none
  else
    match jsTruthy e.dataMessage with
    | some m => some ("Tavus API error: " ++ m)
    | none => none

/-- The error taxonomy of the specification for `createConversation`
failures. -/
inductive TavusErrorClass where
  | invalidCredentials
  | personaNotFound
  | quotaExceeded
  | rateLimited
  | timeout
  | vendorError
  deriving DecidableEq, Repr

/-- The message the 400-branch of `createTherapyConversation` sniffs:
`error.response?.data?.message || error.response?.data?.error || 'Bad request'`
(`tavusService.ts:169`). -/
def create400Message (e : VendorFailure) : String :=
  jsOrStr e.dataMessage (jsOrStr e.dataError "Bad request")

/-- The catch-block of `TavusService.createTherapyConversation`
(`tavusService.ts:165-194`), with each distinct throw site mapped to its
class in the specification's taxonomy: the 400 branch sniffs the body
message for "persona" then "quota"/"limit" (case-insensitively); then
401/403 are invalid credentials, 404 is persona-not-found, 429 is
rate-limited, an `ECONNABORTED` code is a timeout, and everything else is a
generic vendor error wrapping the body message (or a canned fallback). -/
def classifyCreateConversationFailure (e : VendorFailure) : TavusErrorClass :=
  if e.status = some 400 then
    if containsStr (lowerChars (create400Message e)) "persona" then
      TavusErrorClass.personaNotFound
    else if containsStr (lowerChars (create400Message e)) "quota" ||
            containsStr (lowerChars (create400Message e)) "limit" then
      TavusErrorClass.quotaExceeded
    else
      TavusErrorClass.vendorError
  else if e.status = some 401 then
    TavusErrorClass.invalidCredentials
  else if e.status = some 403 then
    TavusErrorClass.invalidCredentials
  else if e.status = some 404 then
    TavusErrorClass.personaNotFound
  else if e.status = some 429 then
    TavusErrorClass.rateLimited
  else if e.code = some "ECONNABORTED" then
    TavusErrorClass.timeout
  else
    TavusErrorClass.vendorError

/-- `TavusPersona` (`tavusService.ts:8-14`). -/
structure TavusPersona where
  persona_id : String
  persona_name : String
  system_prompt : Option String := none
  context : Option String := none
  default_replica_id : Option String := none
  deriving DecidableEq, Repr

/-- The `status` field of a vendor conversation (`tavusService.ts:19`). -/
inductive ConvStatus where
  | active
  | ended
  | error
  deriving DecidableEq, Repr

/-- `TavusConversation` (`tavusService.ts:16-23`). -/
structure TavusConversation where
  conversation_id : String
  conversation_url : String
  status : ConvStatus
  participant_count : Option Nat := none
  created_at : String
  persona_id : String
  deriving DecidableEq, Repr

/-- The `type` field of a `TherapyMessage` (`useTherapySession.ts:6`). -/
inductive MsgType where
  | user
  | ai
  deriving DecidableEq, Repr

/-- `TherapyMessage` (`useTherapySession.ts:4-10`); `Date` values are
modelled as abstract `Nat` ticks (the `now` passed to each step). -/
structure TherapyMessage where
  id : String
  type : MsgType
  content : String
  timestamp : Nat
  mood : Option String := none
  deriving DecidableEq, Repr

/-- `SessionStatus` (`useTherapySession.ts:28`). -/
inductive SessionStatus where
  | idle
  | connecting
  | active
  | ended
  deriving DecidableEq, Repr

/-- The `useState` cells of `useTherapySession` plus the ghost field
`endedCalls`, which records each `conversation_id` for which
`tavusService.endConversation` has been invoked (so that "the previous
Conversation was never ended vendor-side" is expressible). -/
structure ControllerState where
  persona : Option TavusPersona
  conversation : Option TavusConversation
  messages : List TherapyMessage
  isLoading : Bool
  isConnected : Bool
  error : Option String
  isVideoEnabled : Bool
  isAudioEnabled : Bool
  sessionStatus : SessionStatus
  endedCalls : List String
  deriving DecidableEq, Repr

/-- The hook's initial state (`useTherapySession.ts:20-28`). -/
def initialState : ControllerState where
  persona := none
  conversation := none
  messages := []
  isLoading := false
  isConnected := false
  error := none
  isVideoEnabled := true
  isAudioEnabled := true
  sessionStatus := SessionStatus.idle
  endedCalls := []

/-- The environment credentials the singleton `tavusService` was built
from (`VITE_TAVUS_API_KEY` / `VITE_TAVUS_PERSONA_ID`). -/
structure TavusConfig where
  apiKey : String
  personaId : String
  deriving DecidableEq, Repr

/-- The synthetic greeting content (`useTherapySession.ts:102`), including
the JS-truthiness conditional on `persona?.persona_name`. -/
def greetingContent (p : Option TavusPersona) : String :=
  "Hello, I\x27m your AI therapy companion" ++
    (match p with
     | some pp => if pp.persona_name != "" then " " ++ pp.persona_name else ""
     | none => "") ++
    ". I\x27m here to provide you with a safe, supportive space to explore your thoughts and feelings. How are you doing today, and what would you like to talk about?"

/-- The initial AI greeting message (`useTherapySession.ts:99-104`). -/
def greetingMessage (p : Option TavusPersona) (now : Nat) : TherapyMessage where
  id := "initial-" ++ toString now
  type := MsgType.ai
  content := greetingContent p
  timestamp := now

/-- The optimistic user message built by `sendMessage`
(`useTherapySession.ts:130-136`). -/
def userMessage (content : String) (mood : Option String) (now : Nat) : TherapyMessage where
  id := "user-" ++ toString now
  type := MsgType.user
  content := content
  timestamp := now
  mood := mood

/-- The simulated AI reply message built inside the `setTimeout` callback
(`useTherapySession.ts:143-148`); its content comes from
`generateTherapyResponse`, which draws on `Math.random` and is therefore
taken as a parameter. -/
def aiReplyMessage (content : String) (now : Nat) : TherapyMessage where
  id := "ai-" ++ toString now
  type := MsgType.ai
  content := content
  timestamp := now

/-- The synchronous prefix of `startTherapySession`
(`useTherapySession.ts:72-82`): only the `isConfigured` guard is checked —
`sessionStatus` is not consulted — then loading/connecting are set and the
error cleared, and the hook awaits `createTherapyConversation`. -/
def startBegin (cfg : TavusConfig) (s : ControllerState) : ControllerState :=
  if isConfigured cfg.apiKey cfg.personaId then
    { s with isLoading := true
             sessionStatus := SessionStatus.connecting
             error := none }
  else
    { s with error := some "Tavus service is not configured. Please check your API key and persona ID." }

/-- The continuation of `startTherapySession` after
`createTherapyConversation` resolves successfully
(`useTherapySession.ts:87-107` plus the `finally`): the new conversation is
stored unconditionally, the status becomes `active`, and the message list
is replaced by the single greeting. -/
def startResolveOk (s : ControllerState) (conv : TavusConversation) (now : Nat) : ControllerState :=
  { s with conversation := some conv
           isConnected := true
           sessionStatus := SessionStatus.active
           messages := [greetingMessage s.persona now]
           isLoading := false }

/-- The continuation of `startTherapySession` after
`createTherapyConversation` rejects with message `m`
(`useTherapySession.ts:109-117`): store `err.message || 'Failed to start
therapy session'`, return to `idle`, stop loading; the conversation cell is
not touched. -/
def startResolveErr (s : ControllerState) (m : Option String) : ControllerState :=
  { s with error := some (jsOrStr m "Failed to start therapy session")
           sessionStatus := SessionStatus.idle
           isLoading := false }

/-- `endTherapySession` run to completion (`useTherapySession.ts:205-232`).
With no stored conversation it returns immediately.  Otherwise
`tavusService.endConversation` is awaited (recorded in `endedCalls`);
whether it returns normally (`vendorOk = true`) or throws, the conversation
and message list are cleared and the status becomes `idle` — only the
success path also clears `error`. -/
def endSessionStep (s : ControllerState) (vendorOk : Bool) : ControllerState :=
  match s.conversation with
  | none => s
  | some c =>
    { s with isLoading := false
             isConnected := false
             conversation := none
             messages := []
             error := if vendorOk then none else s.error
             sessionStatus := SessionStatus.idle
             endedCalls := s.endedCalls ++ [c.conversation_id] }

/-- The synchronous part of `sendMessage` (`useTherapySession.ts:121-139`).
The first component is the synchronously thrown error, if any: with no
stored conversation the hook throws `'No active therapy session'` before
touching any state cell; otherwise it sets loading and appends the
optimistic user message before scheduling the simulated reply
(`aiReplyStep`) — no network or other asynchronous effect precedes the
append. -/
def sendMessage (s : ControllerState) (content : String) (mood : Option String)
    (now : Nat) : Option String × ControllerState :=
  match s.conversation with
  | none => (some "No active therapy session", s)
  | some _ =>
    (none,
     { s with isLoading := true
              messages := s.messages ++ [userMessage content mood now] })

/-- The `setTimeout` callback of `sendMessage`
(`useTherapySession.ts:142-153`): append the simulated AI reply and stop
loading. -/
def aiReplyStep (s : ControllerState) (content : String) (now : Nat) : ControllerState :=
  { s with messages := s.messages ++ [aiReplyMessage content now]
           isLoading := false }

/-- The catch-block of `sendMessage` (`useTherapySession.ts:155-161`):
store `err.message || 'Failed to send message'` and stop loading; the
message list is not touched (the optimistic message is not rolled back). -/
def sendFailStep (s : ControllerState) (m : Option String) : ControllerState :=
  { s with error := some (jsOrStr m "Failed to send message")
           isLoading := false }

/-- The classification exactly as the specification sentence states it
(refinement reference, written from the spec's words, not from the code):
"InvalidCredentials (401/403), PersonaNotFound (404 or message-sniffed
'persona' in a 400 body), QuotaExceeded (message-sniffed 'quota'/'limit'),
RateLimited (429), Timeout (client-side abort), or a generic VendorError".
Note the quota/limit sniff is not restricted to a 400 response here. -/
def classifyCreateConversationFailureSpec (e : VendorFailure) : TavusErrorClass :=
  if e.status = some 401 ∨ e.status = some 403 then
    TavusErrorClass.invalidCredentials
  else if e.status = some 404 ∨
          (e.status = some 400 ∧
            containsStr (lowerChars (create400Message e)) "persona" = true) then
    TavusErrorClass.personaNotFound
  else if containsStr (lowerChars (create400Message e)) "quota" = true ∨
          containsStr (lowerChars (create400Message e)) "limit" = true then
    TavusErrorClass.quotaExceeded
  else if e.status = some 429 then
    TavusErrorClass.rateLimited
  else if e.code = some "ECONNABORTED" then
    TavusErrorClass.timeout
  else
    TavusErrorClass.vendorError

/-- The amended classification, ordered as the specification lists the
classes but with the two corrections the code forces: the quota/limit sniff
applies only inside a 400 response, and within a 400 body the "persona"
sniff takes precedence over "quota"/"limit". -/
def classifyCreateConversationFailureAmended (e : VendorFailure) : TavusErrorClass :=
  if e.status = some 401 ∨ e.status = some 403 then
    TavusErrorClass.invalidCredentials
  else if e.status = some 429 then
    TavusErrorClass.rateLimited
  else if e.status = some 404 then
    TavusErrorClass.personaNotFound
  else if e.status = some 400 then
    if containsStr (lowerChars (create400Message e)) "persona" then
      TavusErrorClass.personaNotFound
    else if containsStr (lowerChars (create400Message e)) "quota" ||
            containsStr (lowerChars (create400Message e)) "limit" then
      TavusErrorClass.quotaExceeded
    else
      TavusErrorClass.vendorError
  else if e.code = some "ECONNABORTED" then
    TavusErrorClass.timeout
  else
    TavusErrorClass.vendorError

/-- A configured credential pair for concrete runs: both strings are longer
than 10 characters and contain no placeholder sentinel. -/
def cfgW : TavusConfig where
  apiKey := "tvk-0123456789"
  personaId := "per-0123456789"

/-- A first concrete vendor conversation. -/
def convW1 : TavusConversation where
  conversation_id := "c1"
  conversation_url := "https://vendor/x"
  status := ConvStatus.active
  created_at := "2025-01-01"
  persona_id := "per-0123456789"

/-- A second, distinct concrete vendor conversation. -/
def convW2 : TavusConversation where
  conversation_id := "c2"
  conversation_url := "https://vendor/y"
  status := ConvStatus.active
  created_at := "2025-01-02"
  persona_id := "per-0123456789"

/-- The controller state after one completed successful start from the
initial state: an active session holding `convW1`. -/
def sActive1 : ControllerState :=
  startResolveOk (startBegin cfgW initialState) convW1 1

set_option maxRecDepth 8192 in
/-- Claim C1 is false on the code: from an active session holding `convW1`,
a second `startTherapySession` is not a no-op (the state changes to
`connecting`) and its resolution silently replaces the stored Conversation
with `convW2`, while `endConversation` is never invoked for `convW1`
(`endedCalls` stays empty), so two non-ended Conversations have existed. -/
theorem C1_counterexample :
    sActive1.sessionStatus = SessionStatus.active ∧
    sActive1.conversation = some convW1 ∧
    (startBegin cfgW sActive1).sessionStatus = SessionStatus.connecting ∧
    startBegin cfgW sActive1 ≠ sActive1 ∧
    (startResolveOk (startBegin cfgW sActive1) convW2 2).conversation = some convW2 ∧
    convW2 ≠ convW1 ∧
    (startResolveOk (startBegin cfgW sActive1) convW2 2).endedCalls = [] := by
  decide

/-- Claim C1 amended: `startTherapySession` is guarded only by
`isConfigured`, never by `sessionStatus`; invoked while the controller is
`connecting` or `active` it proceeds to `connecting` (leaving the stored
Conversation in place and calling no `endConversation`), and on success it
replaces the stored Conversation with the new one. -/
theorem C1_amended (cfg : TavusConfig) (s : ControllerState)
    (conv : TavusConversation) (now : Nat)
    (hcfg : isConfigured cfg.apiKey cfg.personaId = true)
    (_hbusy : s.sessionStatus = SessionStatus.connecting ∨
             s.sessionStatus = SessionStatus.active) :
    (startBegin cfg s).sessionStatus = SessionStatus.connecting ∧
    (startBegin cfg s).conversation = s.conversation ∧
    (startBegin cfg s).endedCalls = s.endedCalls ∧
    (startResolveOk (startBegin cfg s) conv now).conversation = some conv ∧
    (startResolveOk (startBegin cfg s) conv now).sessionStatus = SessionStatus.active := by
  simp [startBegin, startResolveOk, hcfg]

/-- Witness for `C1_amended` at the concrete active state `sActive1`. -/
theorem C1_amended_witness :
    isConfigured cfgW.apiKey cfgW.personaId = true ∧
    sActive1.sessionStatus = SessionStatus.active ∧
    ((startBegin cfgW sActive1).sessionStatus = SessionStatus.connecting ∧
     (startBegin cfgW sActive1).conversation = sActive1.conversation ∧
     (startBegin cfgW sActive1).endedCalls = sActive1.endedCalls ∧
     (startResolveOk (startBegin cfgW sActive1) convW2 2).conversation = some convW2 ∧
     (startResolveOk (startBegin cfgW sActive1) convW2 2).sessionStatus = SessionStatus.active) :=
  ⟨by decide, by decide,
   C1_amended cfgW sActive1 convW2 2 (by decide) (Or.inr (by decide))⟩

set_option maxRecDepth 8192 in
/-- Claim C2 evaluated on the code at its failing input: with the active
session `sActive1` holding `convW1`, a second start goes in flight; the
user then runs `endTherapySession` to completion (the controller leaves
`connecting`: it is `idle` with no conversation); yet when the in-flight
`createTherapyConversation` resolves, the controller transitions back to
`active` and stores the late Conversation — the ended session is
resurrected, contradicting the claim. -/
theorem C2_resurrection_behavior :
    (endSessionStep (startBegin cfgW sActive1) true).sessionStatus = SessionStatus.idle ∧
    (endSessionStep (startBegin cfgW sActive1) true).conversation = none ∧
    (endSessionStep (startBegin cfgW sActive1) true).endedCalls = ["c1"] ∧
    (startResolveOk (endSessionStep (startBegin cfgW sActive1) true) convW2 2).sessionStatus
        = SessionStatus.active ∧
    (startResolveOk (endSessionStep (startBegin cfgW sActive1) true) convW2 2).conversation
        = some convW2 := by
  decide

/-- Claim C3 is false on the code: a 401 failure of `endConversation` is
re-thrown to the caller (`Invalid Tavus API key.`), and so is any non-404
failure carrying a vendor message — while a 404 is indeed treated as
success. -/
theorem C3_counterexample :
    endConversationOutcome
        { status := some 401, dataMessage := none, dataError := none, code := none }
        = some "Invalid Tavus API key." ∧
    endConversationOutcome
        { status := some 500, dataMessage := some "vendor says no",
          dataError := none, code := none }
        = some "Tavus API error: vendor says no" ∧
    endConversationOutcome
        { status := some 404, dataMessage := none, dataError := none, code := none }
        = none := by
  decide

/-- Claim C3 amended: `endConversation` treats a 404 as success, but it
re-raises a 401 and any other failure whose response body carries a truthy
vendor message; only the remaining failures are logged and swallowed.
Precisely: the call returns normally exactly when the status is not 401
and either the status is 404 or the body message is absent or empty. -/
theorem C3_amended (e : VendorFailure) :
    endConversationOutcome e = none ↔
      (e.status ≠ some 401 ∧
       (e.status = some 404 ∨ jsTruthy e.dataMessage = none)) := by
  unfold endConversationOutcome
  split_ifs with h1 h2
  · simp [h1]
  · simp [h1, h2]
  · cases hm : jsTruthy e.dataMessage <;> simp [h1, h2, hm]

/-- Claim C4 is false on the code: `isConfigured` returns `true` for a pair
of whitespace-only credentials of eleven spaces each (no whitespace check
exists), and returns `false` for a plausible short non-placeholder pair
(an undocumented length-greater-than-ten requirement exists). -/
theorem C4_counterexample :
    isConfigured "           " "           " = true ∧
    isConfigured "k7realkey" "p7realid" = false := by
  decide

/-- Claim C4 amended: `isConfigured` is a pure predicate that is `true`
exactly when both the API key and the persona id are longer than ten
characters and neither contains its documented placeholder sentinels;
emptiness is subsumed by the length bound, and whitespace-only values are
not rejected. -/
theorem C4_amended (k p : String) :
    isConfigured k p = true ↔
      (10 < k.length ∧ 10 < p.length ∧
       containsStr k "your_tavus_api_key_here" = false ∧
       containsStr k "your_actual_tavus_api_key_here" = false ∧
       containsStr p "your_persona_id_here" = false ∧
       containsStr p "your_actual_persona_id_here" = false) := by
  unfold isConfigured
  simp only [Bool.and_eq_true, bne_iff_ne, ne_eq, Bool.not_eq_true',
    decide_eq_true_eq]
  constructor
  · rintro ⟨⟨⟨⟨⟨⟨⟨hk, hp⟩, h1⟩, h2⟩, h3⟩, h4⟩, hkl⟩, hpl⟩
    exact ⟨hkl, hpl, h1, h2, h3, h4⟩
  · rintro ⟨hkl, hpl, h1, h2, h3, h4⟩
    refine ⟨⟨⟨⟨⟨⟨⟨?_, ?_⟩, h1⟩, h2⟩, h3⟩, h4⟩, hkl⟩, hpl⟩
    · intro h
      rw [h] at hkl
      exact absurd hkl (by decide)
    · intro h
      rw [h] at hpl
      exact absurd hpl (by decide)

/-- Claim C5: after `endTherapySession` completes on a controller holding a
Conversation, the message list is empty and the stored Conversation is
`none`, whether the vendor end-call succeeded (`vendorOk = true`) or threw
(`vendorOk = false`). -/
theorem C5_end_clears (s : ControllerState) (c : TavusConversation) (vendorOk : Bool)
    (h : s.conversation = some c) :
    (endSessionStep s vendorOk).messages = [] ∧
    (endSessionStep s vendorOk).conversation = none := by
  simp [endSessionStep, h]

set_option maxRecDepth 8192 in
/-- Witness for `C5_end_clears` at the active state `sActive1`, on the
vendor-failure path. -/
theorem C5_end_clears_witness :
    sActive1.conversation = some convW1 ∧
    ((endSessionStep sActive1 false).messages = [] ∧
     (endSessionStep sActive1 false).conversation = none) :=
  ⟨by decide, C5_end_clears sActive1 convW1 false (by decide)⟩

/-- Claim C6: when `createTherapyConversation` rejects during start, the
controller stores the normalized error message (`err.message`, or the
canned fallback when absent or empty), returns to `idle` rather than
staying in `connecting`, and — having held no conversation — still holds
none. -/
theorem C6_start_failure_idle (s : ControllerState) (m : Option String)
    (h : s.conversation = none) :
    (startResolveErr s m).error
        = some (jsOrStr m "Failed to start therapy session") ∧
    (startResolveErr s m).sessionStatus = SessionStatus.idle ∧
    (startResolveErr s m).conversation = none := by
  simp [startResolveErr, h]

/-- Witness for `C6_start_failure_idle`: a start from the initial state
whose create call rejects with a rate-limit message. -/
theorem C6_start_failure_idle_witness :
    (startBegin cfgW initialState).conversation = none ∧
    ((startResolveErr (startBegin cfgW initialState)
          (some "Rate limit exceeded. Please wait a moment and try again.")).error
        = some (jsOrStr (some "Rate limit exceeded. Please wait a moment and try again.")
            "Failed to start therapy session") ∧
     (startResolveErr (startBegin cfgW initialState)
          (some "Rate limit exceeded. Please wait a moment and try again.")).sessionStatus
        = SessionStatus.idle ∧
     (startResolveErr (startBegin cfgW initialState)
          (some "Rate limit exceeded. Please wait a moment and try again.")).conversation
        = none) :=
  ⟨by decide,
   C6_start_failure_idle (startBegin cfgW initialState)
     (some "Rate limit exceeded. Please wait a moment and try again.") (by decide)⟩

/-- Claim C7: when `createTherapyConversation` resolves successfully for a
start issued from the idle state, the controller becomes `active`, stores
the returned Conversation, and the message list holds exactly the one
synthetic greeting, whose author is the agent (`ai`). -/
theorem C7_start_success_active (cfg : TavusConfig) (s : ControllerState)
    (conv : TavusConversation) (now : Nat)
    (hcfg : isConfigured cfg.apiKey cfg.personaId = true)
    (_hidle : s.sessionStatus = SessionStatus.idle) :
    (startResolveOk (startBegin cfg s) conv now).sessionStatus = SessionStatus.active ∧
    (startResolveOk (startBegin cfg s) conv now).conversation = some conv ∧
    (startResolveOk (startBegin cfg s) conv now).messages
        = [greetingMessage s.persona now] ∧
    (greetingMessage s.persona now).type = MsgType.ai := by
  simp [startBegin, startResolveOk, greetingMessage, hcfg]

set_option maxRecDepth 8192 in
/-- Witness for `C7_start_success_active`: the start from `initialState`
resolving with `convW1`. -/
theorem C7_start_success_active_witness :
    isConfigured cfgW.apiKey cfgW.personaId = true ∧
    initialState.sessionStatus = SessionStatus.idle ∧
    ((startResolveOk (startBegin cfgW initialState) convW1 1).sessionStatus
        = SessionStatus.active ∧
     (startResolveOk (startBegin cfgW initialState) convW1 1).conversation = some convW1 ∧
     (startResolveOk (startBegin cfgW initialState) convW1 1).messages
        = [greetingMessage initialState.persona 1] ∧
     (greetingMessage initialState.persona 1).type = MsgType.ai) :=
  ⟨by decide, by decide,
   C7_start_success_active cfgW initialState convW1 1 (by decide) (by decide)⟩

/-- Claim C8 is false on the code as stated: a response whose body message
contains "quota" does not map to QuotaExceeded unless the HTTP status is
400 — at status 500 the code wraps it as a generic vendor error, while the
claim's rule (formalised verbatim in
`classifyCreateConversationFailureSpec`) demands QuotaExceeded. -/
theorem C8_counterexample :
    classifyCreateConversationFailure
        { status := some 500, dataMessage := some "quota exceeded",
          dataError := none, code := none }
        = TavusErrorClass.vendorError ∧
    classifyCreateConversationFailureSpec
        { status := some 500, dataMessage := some "quota exceeded",
          dataError := none, code := none }
        = TavusErrorClass.quotaExceeded := by
  decide

/-- Claim C8 amended: `createTherapyConversation` maps every failure to
exactly one class — InvalidCredentials for 401/403; RateLimited for 429;
PersonaNotFound for 404, or for a 400 whose (lowercased) body message
contains "persona"; QuotaExceeded only for a 400 whose body message
contains "quota" or "limit" but not "persona"; Timeout for a client-side
abort (`ECONNABORTED`) with none of the above statuses; and a generic
VendorError wrapping the response body otherwise. -/
theorem C8_amended (e : VendorFailure) :
    classifyCreateConversationFailure e = classifyCreateConversationFailureAmended e := by
  unfold classifyCreateConversationFailure classifyCreateConversationFailureAmended
  split_ifs <;> simp_all

/-- Claim C9: with a stored Conversation, `sendMessage` throws nothing and
appends the optimistic user message in its synchronous part — before the
deferred reply or any other asynchronous effect — and a subsequent failure
continuation leaves that message in place (no rollback). -/
theorem C9_optimistic_append (s : ControllerState) (c : TavusConversation)
    (content : String) (mood : Option String) (now : Nat) (m : Option String)
    (h : s.conversation = some c) :
    (sendMessage s content mood now).1 = none ∧
    (sendMessage s content mood now).2.messages
        = s.messages ++ [userMessage content mood now] ∧
    (sendFailStep (sendMessage s content mood now).2 m).messages
        = s.messages ++ [userMessage content mood now] := by
  simp [sendMessage, sendFailStep, h]

set_option maxRecDepth 8192 in
/-- Witness for `C9_optimistic_append`: a mood-tagged send in the active
state `sActive1`, followed by a failure continuation. -/
theorem C9_optimistic_append_witness :
    sActive1.conversation = some convW1 ∧
    ((sendMessage sActive1 "I feel low" (some "sad") 3).1 = none ∧
     (sendMessage sActive1 "I feel low" (some "sad") 3).2.messages
        = sActive1.messages ++ [userMessage "I feel low" (some "sad") 3] ∧
     (sendFailStep (sendMessage sActive1 "I feel low" (some "sad") 3).2
          (some "network down")).messages
        = sActive1.messages ++ [userMessage "I feel low" (some "sad") 3]) :=
  ⟨by decide,
   C9_optimistic_append sActive1 convW1 "I feel low" (some "sad") 3
     (some "network down") (by decide)⟩

/-- Claim C10: `sendMessage` with no stored Conversation throws the
synchronous error `No active therapy session` and leaves the controller
state unchanged — no message is appended and nothing else happens. -/
theorem C10_no_session_throws (s : ControllerState) (content : String)
    (mood : Option String) (now : Nat) (h : s.conversation = none) :
    sendMessage s content mood now = (some "No active therapy session", s) := by
  simp [sendMessage, h]

/-- Witness for `C10_no_session_throws` at the initial (pre-start) state. -/
theorem C10_no_session_throws_witness :
    initialState.conversation = none ∧
    sendMessage initialState "hello" none 0
        = (some "No active therapy session", initialState) :=
  ⟨by decide, C10_no_session_throws initialState "hello" none 0 (by decide)⟩
